import Mathlib

/-!
Shallow embedding of the outfit recommendation engine
(`src/lib/recommendations.ts`) of the ai-wardrobe-stylist repository.

JavaScript numbers are modelled as exact rationals (`ℚ`); all score
constants in the source (0.95, 0.8, ...) are exactly representable.
JavaScript arrays are Lean lists; the in-place `Array.prototype.sort`
(stable since ES2019) is modelled by the stable insertion sort
`jsStableSort`, and functions that mutate their input array are
modelled by returning the final state of that array alongside their
result. The `Record` lookup `COLOR_HARMONY_MATRIX[color]` is modelled
as an `Option`-valued map so that the `if (!harmony)` branch of the
source is represented faithfully.
-/

/-- The closed `ColorFamily` enumeration of the data model. -/
inductive ColorFamily where
  | black | white | gray | navy | blue | red | green
  | yellow | orange | purple | pink | brown | beige | multi
deriving DecidableEq, Repr

/-- The closed `StyleType` enumeration of the data model. -/
inductive StyleType where
  | casual | business | elegant | sporty | trendy
deriving DecidableEq, Repr

/-- The closed `Occasion` enumeration of the data model. -/
inductive Occasion where
  | work | casual | date | formal | party
deriving DecidableEq, Repr

/-- The closed `Season` enumeration (`all-season` is `allSeason`). -/
inductive Season where
  | spring | summer | fall | winter | allSeason
deriving DecidableEq, Repr

/-- The closed `ClothingCategory` enumeration of the data model. -/
inductive ClothingCategory where
  | tops | bottoms | dresses | outerwear | shoes | accessories
deriving DecidableEq, Repr

/-- One wardrobe entry; only the fields the recommendation engine reads.
The field `dateAdded` is the item timestamp in milliseconds
(`Date.getTime()`). -/
structure ClothingItem where
  id : String
  category : ClothingCategory
  colors : List ColorFamily
  primaryColor : ColorFamily
  style : StyleType
  season : List Season
  wearCount : Nat
  isFavorite : Bool
  dateAdded : ℚ
deriving DecidableEq, Repr

/-- The output unit of the engine. -/
structure OutfitRecommendation where
  items : List ClothingItem
  confidence : ℚ
  reasoning : String
  styleScore : ℚ
  colorHarmony : ℚ
  occasion : Occasion
deriving DecidableEq, Repr

/-- One row of `COLOR_HARMONY_MATRIX`. -/
structure ColorProfile where
  complementary : List ColorFamily
  compatible : List ColorFamily
  avoid : List ColorFamily
deriving DecidableEq, Repr

/-- One row of `OCCASION_STYLE_MAP`. -/
structure StyleProfile where
  preferred : List StyleType
  acceptable : List StyleType
  avoid : List StyleType
deriving DecidableEq, Repr

/-- One entry of `OUTFIT_COMBINATIONS` (an outfit skeleton). -/
structure OutfitCombination where
  required : List ClothingCategory
  optionalCats : List ClothingCategory
  weight : ℚ
deriving DecidableEq, Repr

/-- The options record of `generateOutfitRecommendations`; the source
defaults (`excludeItemIds = []`, `includeItemIds = []`,
`maxRecommendations = 10`) are supplied by callers here. -/
structure RecommendationOptions where
  season : Option Season
  preferredColors : Option (List ColorFamily)
  excludeItemIds : List String
  includeItemIds : List String
  maxRecommendations : Nat
deriving DecidableEq, Repr

open ColorFamily in
/-- Source table `COLOR_HARMONY_MATRIX`, as an `Option`-valued lookup:
the TypeScript `Record` has an entry for every color family, so every
result is `some`. -/
def COLOR_HARMONY_MATRIX : ColorFamily → Option ColorProfile
  | black => some ⟨[white, gray], [red, blue, pink, yellow, green, purple, orange], [brown]⟩
  | white => some ⟨[black, navy], [blue, red, green, pink, purple, orange, yellow], [beige]⟩
  | gray => some ⟨[black, white], [red, blue, pink, yellow, green, purple, orange], []⟩
  | navy => some ⟨[white, beige], [red, pink, yellow, gray], [black, brown]⟩
  | blue => some ⟨[orange, yellow], [white, gray, navy, beige], [green, purple]⟩
  | red => some ⟨[green, white], [black, gray, navy, beige], [orange, pink]⟩
  | green => some ⟨[red, pink], [beige, brown, white, navy], [blue, purple]⟩
  | yellow => some ⟨[purple, blue], [white, gray, black, navy], [orange, green]⟩
  | orange => some ⟨[blue, navy], [white, black, brown, beige], [red, pink]⟩
  | purple => some ⟨[yellow, green], [white, gray, black], [red, orange]⟩
  | pink => some ⟨[green, navy], [white, gray, black, beige], [red, orange]⟩
  | brown => some ⟨[blue, green], [beige, white, orange, yellow], [black, purple]⟩
  | beige => some ⟨[navy, brown], [white, blue, green, pink], [yellow]⟩
  | multi => some ⟨[black, white], [gray, navy, beige], []⟩

open StyleType in
/-- Source table `OCCASION_STYLE_MAP`. -/
def OCCASION_STYLE_MAP : Occasion → StyleProfile
  | .work => ⟨[business, elegant], [casual], [sporty, trendy]⟩
  | .casual => ⟨[casual, sporty], [trendy], [business, elegant]⟩
  | .date => ⟨[elegant, trendy], [casual], [sporty, business]⟩
  | .formal => ⟨[elegant, business], [], [casual, sporty, trendy]⟩
  | .party => ⟨[trendy, elegant], [casual], [business, sporty]⟩

open ClothingCategory in
/-- Source table `OUTFIT_COMBINATIONS`: the three fixed skeletons. -/
def OUTFIT_COMBINATIONS : List OutfitCombination :=
  [ ⟨[tops, bottoms, shoes], [accessories, outerwear], 1.0⟩,
    ⟨[dresses, shoes], [accessories, outerwear], 1.0⟩,
    ⟨[tops, bottoms, shoes, outerwear], [accessories], 0.9⟩ ]

/-- Source function `calculateColorHarmony`: color harmony score between
two items, looked up through the profile of the first item. -/
def calculateColorHarmony (item1 item2 : ClothingItem) : ℚ :=
  let color1 := item1.primaryColor
  let color2 := item2.primaryColor
  if color1 = color2 then 1.0
  else
    match COLOR_HARMONY_MATRIX color1 with
    | none => 0.5
    | some harmony =>
      if color2 ∈ harmony.complementary then 0.95
      else if color2 ∈ harmony.compatible then 0.8
      else if color2 ∈ harmony.avoid then 0.2
      else 0.6

/-- Source function `calculateStyleScore`: the `forEach` loop
accumulating `totalScore` and `itemCount` is a left fold. -/
def calculateStyleScore (items : List ClothingItem) (occasion : Occasion) : ℚ :=
  let styleMap := OCCASION_STYLE_MAP occasion
  let acc := items.foldl
    (fun (a : ℚ × Nat) item =>
      let score : ℚ :=
        if item.style ∈ styleMap.preferred then 1.0
        else if item.style ∈ styleMap.acceptable then 0.7
        else if item.style ∈ styleMap.avoid then 0.2
        else 0.5
      (a.1 + score, a.2 + 1))
    (0, 0)
  if acc.2 > 0 then acc.1 / acc.2 else 0

/-- The nested `for i; for j > i` loop of `calculateOutfitColorHarmony`:
the harmony scores of all index pairs `i < j`, in loop order. -/
def pairHarmonyScores : List ClothingItem → List ℚ
  | [] => []
  | x :: xs => xs.map (calculateColorHarmony x) ++ pairHarmonyScores xs

/-- Source function `calculateOutfitColorHarmony`. -/
def calculateOutfitColorHarmony (items : List ClothingItem) : ℚ :=
  if items.length < 2 then 1.0
  else
    let scores := pairHarmonyScores items
    if scores.length > 0 then scores.sum / scores.length else 1.0

/-- Model of the ES2019 `Array.prototype.sort` contract (a stable sort
with respect to a comparator `c`): insertion step. `lt a b` stands for
`c a b < 0`, i.e. `a` must come strictly before `b`. -/
def jsSortInsert {α : Type} (lt : α → α → Bool) (x : α) : List α → List α
  | [] => [x]
  | y :: ys => if lt y x then y :: jsSortInsert lt x ys else x :: y :: ys

/-- Model of the ES2019 `Array.prototype.sort` contract: stable
insertion sort. An element is inserted after every element strictly
before it, hence ties keep their original relative order, as the
JavaScript specification requires. -/
def jsStableSort {α : Type} (lt : α → α → Bool) : List α → List α
  | [] => []
  | x :: xs => jsSortInsert lt x (jsStableSort lt xs)

/-- Source function `filterBySeasonality`. -/
def filterBySeasonality (items : List ClothingItem) (season : Option Season) : List ClothingItem :=
  match season with
  | none => items
  | some s => items.filter (fun item => item.season.contains s || item.season.contains Season.allSeason)

/-- Source function `groupItemsByCategory`: the `forEach` pushing each
item onto `groups[item.category]` is a left fold over a category-indexed
map of lists (every bucket starts empty). -/
def groupItemsByCategory (items : List ClothingItem) : ClothingCategory → List ClothingItem :=
  items.foldl
    (fun groups item cat =>
      if cat = item.category then groups cat ++ [item] else groups cat)
    (fun _ => [])

mutual

/-- Source function `generateRecursive` (the inner closure of
`generateCombinations`): the mutable `combinations` accumulator is
threaded explicitly. -/
def generateRecursive (maxCombinations : Nat) (requiredLists : List (List ClothingItem))
    (currentOutfit : List ClothingItem) (combinations : List (List ClothingItem)) :
    List (List ClothingItem) :=
  if combinations.length ≥ maxCombinations then combinations
  else
    match requiredLists with
    | [] => combinations ++ [currentOutfit]
    | currentList :: rest =>
        generateLoop maxCombinations rest currentOutfit (currentList.take 5) combinations
termination_by (requiredLists.length, 1, 0)

/-- The `for i of 0..maxItems` loop inside `generateRecursive`: iterates
over the first (at most) 5 items of the current category list. -/
def generateLoop (maxCombinations : Nat) (rest : List (List ClothingItem))
    (currentOutfit : List ClothingItem) (pending : List ClothingItem)
    (combinations : List (List ClothingItem)) : List (List ClothingItem) :=
  match pending with
  | [] => combinations
  | item :: remaining =>
      let combinations2 :=
        if currentOutfit.any (fun existing => existing.id == item.id) then combinations
        else generateRecursive maxCombinations rest (currentOutfit ++ [item]) combinations
      generateLoop maxCombinations rest currentOutfit remaining combinations2
termination_by (rest.length + 1, 0, pending.length)

end

/-- Source function `generateCombinations`. -/
def generateCombinations (groups : ClothingCategory → List ClothingItem)
    (combination : OutfitCombination) (maxCombinations : Nat) : List (List ClothingItem) :=
  let requiredLists := (combination.required.map (fun cat => groups cat)).filter
    (fun list => list.length > 0)
  if requiredLists.length ≠ combination.required.length then []
  else generateRecursive maxCombinations requiredLists [] []

/-- The string form of an `Occasion` (the source occasions are string
literals interpolated into the reasoning text). -/
def occasionString : Occasion → String
  | .work => "work"
  | .casual => "casual"
  | .date => "date"
  | .formal => "formal"
  | .party => "party"

/-- Source function `generateOutfitReasoning`. -/
def generateOutfitReasoning (items : List ClothingItem) (occasion : Occasion)
    (styleScore colorHarmony : ℚ) : String :=
  let reasons : List String := []
  let reasons :=
    if styleScore ≥ 0.8 then
      reasons ++ ["Perfect " ++ occasionString occasion ++ " styling with well-coordinated pieces"]
    else if styleScore ≥ 0.6 then
      reasons ++ ["Good fit for " ++ occasionString occasion ++ " with versatile styling"]
    else reasons
  let reasons :=
    if colorHarmony ≥ 0.85 then reasons ++ ["Excellent color coordination"]
    else if colorHarmony ≥ 0.7 then reasons ++ ["Good color harmony"]
    else reasons
  let favorites := items.filter (fun item => item.isFavorite)
  let reasons :=
    if favorites.length > 0 then
      reasons ++ ["Includes " ++ toString favorites.length ++ " of your favorite pieces"]
    else reasons
  let unworn := items.filter (fun item => item.wearCount == 0)
  let reasons :=
    if unworn.length > 0 then
      reasons ++ ["Features " ++ toString unworn.length ++ " fresh pieces from your wardrobe"]
    else reasons
  if reasons.length > 0 then String.intercalate ". " reasons ++ "."
  else "Solid outfit combination for the occasion."

/-- Source function `scoreOutfitCombination`. -/
def scoreOutfitCombination (items : List ClothingItem) (occasion : Occasion)
    (preferredColors : Option (List ColorFamily)) : OutfitRecommendation :=
  let styleScore := calculateStyleScore items occasion
  let colorHarmony := calculateOutfitColorHarmony items
  let colorPreferenceBonus : ℚ :=
    match preferredColors with
    | none => 0
    | some pcs =>
        if pcs.length > 0 then
          if items.any (fun item =>
              pcs.contains item.primaryColor ||
              item.colors.any (fun color => pcs.contains color)) then 0.1
          else 0
        else 0
  let avgWearCount : ℚ :=
    (items.foldl (fun sum item => sum + (item.wearCount : ℚ)) 0) / items.length
  let freshnessBonus : ℚ := max 0 ((10 - avgWearCount) / 10 * 0.1)
  let favoriteBonus : ℚ := if items.any (fun item => item.isFavorite) then 0.05 else 0
  let baseScore := (styleScore * 0.5) + (colorHarmony * 0.4)
  let totalScore := min 1.0 (baseScore + colorPreferenceBonus + freshnessBonus + favoriteBonus)
  let reasoning := generateOutfitReasoning items occasion styleScore colorHarmony
  ⟨items, totalScore, reasoning, styleScore, colorHarmony, occasion⟩

/-- The sorted item-id list underlying the de-duplication key
`outfit.items.map(item => item.id).sort()` of the source. -/
def sortItemIds (items : List ClothingItem) : List String :=
  jsStableSort (fun a b => decide (a < b)) (items.map (fun item => item.id))

/-- The `for (const outfit of scoredOutfits)` de-duplication loop of
`generateOutfitRecommendations`; the `Set` of seen keys is modelled as
a list with membership semantics. -/
def dedupLoop (maxRecommendations : Nat) : List OutfitRecommendation → List String →
    List OutfitRecommendation → List OutfitRecommendation
  | [], _seen, uniqueOutfits => uniqueOutfits
  | outfit :: rest, seen, uniqueOutfits =>
      let combinationKey := String.intercalate "-" (sortItemIds outfit.items)
      if ¬ seen.contains combinationKey ∧ uniqueOutfits.length < maxRecommendations then
        dedupLoop maxRecommendations rest (combinationKey :: seen) (uniqueOutfits ++ [outfit])
      else
        dedupLoop maxRecommendations rest seen uniqueOutfits

/-- Source function `generateOutfitRecommendations`. -/
def generateOutfitRecommendations (wardrobeItems : List ClothingItem) (occasion : Occasion)
    (options : RecommendationOptions) : List OutfitRecommendation :=
  let availableItems := wardrobeItems.filter
    (fun item => !(options.excludeItemIds.contains item.id))
  let availableItems :=
    match options.season with
    | some s => filterBySeasonality availableItems (some s)
    | none => availableItems
  let includedItems :=
    if options.includeItemIds.length > 0 then
      wardrobeItems.filter (fun item => options.includeItemIds.contains item.id)
    else []
  let groups := groupItemsByCategory availableItems
  let allCombinations := OUTFIT_COMBINATIONS.flatMap (fun combinationType =>
    (generateCombinations groups combinationType 100).filter (fun combo =>
      if includedItems.length > 0 then
        includedItems.all (fun required => combo.any (fun item => item.id == required.id))
      else true))
  let scoredOutfits := allCombinations.map
    (fun items => scoreOutfitCombination items occasion options.preferredColors)
  let sorted := jsStableSort (fun a b => decide (b.confidence < a.confidence)) scoredOutfits
  dedupLoop options.maxRecommendations sorted [] []

/-- The priority score of the `getQuickOutfitSuggestions` comparator;
`now` is the ambient `Date.now()` reading in milliseconds. -/
def quickPriorityScore (now : ℚ) (item : ClothingItem) : ℚ :=
  let days := (now - item.dateAdded) / (1000 * 60 * 60 * 24)
  (10 - (item.wearCount : ℚ)) + (if days < 7 then 5 else 0) +
    (if item.isFavorite then 3 else 0)

/-- Source function `getQuickOutfitSuggestions`. The source line
`wardrobeItems.sort(...)` sorts the array of the caller in place, so the
second component of the result is the final state of the wardrobe array
of the caller after the call. -/
def getQuickOutfitSuggestions (now : ℚ) (wardrobeItems : List ClothingItem)
    (occasion : Occasion) (maxSuggestions : Nat) :
    List OutfitRecommendation × List ClothingItem :=
  let prioritizedItems := jsStableSort
    (fun a b => decide (quickPriorityScore now b < quickPriorityScore now a)) wardrobeItems
  (generateOutfitRecommendations prioritizedItems occasion ⟨none, none, [], [], maxSuggestions⟩,
    prioritizedItems)

/-- The available-item list of the orchestrator after the exclude and
season filters (steps 1 and 2 of spec 4.5). -/
def availableAfterFilters (wardrobeItems : List ClothingItem)
    (options : RecommendationOptions) : List ClothingItem :=
  let availableItems := wardrobeItems.filter
    (fun item => !(options.excludeItemIds.contains item.id))
  match options.season with
  | some s => filterBySeasonality availableItems (some s)
  | none => availableItems

/-- The de-duplication key of one recommendation: the sorted item ids
joined with a dash, as in the source. -/
def outfitKey (outfit : OutfitRecommendation) : String :=
  String.intercalate "-" (sortItemIds outfit.items)

/-- Spec 4.1, transcribed from the words of the spec: pairwise color
harmony, entered through the profile of the first color. -/
def pairHarmonySpec (colorA colorB : ColorFamily) : ℚ :=
  if colorA = colorB then 1.0
  else
    match COLOR_HARMONY_MATRIX colorA with
    | none => 0.5
    | some profile =>
      if colorB ∈ profile.complementary then 0.95
      else if colorB ∈ profile.compatible then 0.8
      else if colorB ∈ profile.avoid then 0.2
      else 0.6

/-- Spec 4.2, transcribed from the words of the spec: the per-item style
contribution for an occasion. -/
def itemStyleScoreSpec (occasion : Occasion) (item : ClothingItem) : ℚ :=
  if item.style ∈ (OCCASION_STYLE_MAP occasion).preferred then 1.0
  else if item.style ∈ (OCCASION_STYLE_MAP occasion).acceptable then 0.7
  else if item.style ∈ (OCCASION_STYLE_MAP occasion).avoid then 0.2
  else 0.5

/-- The pair harmony of a two-element sublist (an unordered pair of
items, in list order), used to state the whole-outfit mean of spec 4.1. -/
def unorderedPairHarmony : List ClothingItem → ℚ
  | [a, b] => pairHarmonySpec a.primaryColor b.primaryColor
  | _ => 0

/-- The average wear count of an outfit, as in spec 4.4. -/
def averageWearCount (items : List ClothingItem) : ℚ :=
  (items.map (fun item => (item.wearCount : ℚ))).sum / items.length

/-- Spec 4.4, transcribed: +0.1 iff `preferredColors` is non-empty and
the primary color or some listed color of some item is preferred. -/
def colorPreferenceBonusSpec (preferredColors : Option (List ColorFamily))
    (items : List ClothingItem) : ℚ :=
  match preferredColors with
  | none => 0
  | some pcs =>
      if pcs ≠ [] ∧ ∃ item ∈ items, item.primaryColor ∈ pcs ∨ ∃ c ∈ item.colors, c ∈ pcs
      then 0.1 else 0

/-- Spec 4.4, transcribed: freshness bonus
`max(0, (10 - averageWearCount) / 10 * 0.1)`. -/
def freshnessBonusSpec (items : List ClothingItem) : ℚ :=
  max 0 ((10 - averageWearCount items) / 10 * 0.1)

/-- Spec 4.4, transcribed: +0.05 iff some item is a favorite. -/
def favoriteBonusSpec (items : List ClothingItem) : ℚ :=
  if ∃ item ∈ items, item.isFavorite = true then 0.05 else 0

mutual

/-- Spec 4.3, transcribed from the words of the spec: the full
cross-product of the first (at most) 5 items of each required category
list, skipping any candidate that would reuse an item identity already
picked, in the depth-first order of the generator. -/
def allSelections (requiredLists : List (List ClothingItem))
    (currentOutfit : List ClothingItem) : List (List ClothingItem) :=
  match requiredLists with
  | [] => [currentOutfit]
  | currentList :: rest =>
      selectionsFrom rest currentOutfit
        ((currentList.take 5).filter
          (fun item => !(currentOutfit.any (fun existing => existing.id == item.id))))
termination_by (requiredLists.length, 1, 0)

/-- The per-category stage of `allSelections`: each admissible item of
the current category is appended in turn and the remaining categories
are expanded. -/
def selectionsFrom (rest : List (List ClothingItem)) (currentOutfit : List ClothingItem) :
    List ClothingItem → List (List ClothingItem)
  | [] => []
  | item :: remaining =>
      allSelections rest (currentOutfit ++ [item]) ++ selectionsFrom rest currentOutfit remaining
termination_by pending => (rest.length + 1, 0, pending.length)

end

/-- A concrete single-item outfit used to instantiate hypothesis-bearing
theorems. -/
def witnessTop : ClothingItem :=
  ⟨"top1", .tops, [.white], .white, .business, [.allSeason], 0, true, 0⟩

/-- A concrete bottoms item for the end-to-end fixtures. -/
def witnessBottom : ClothingItem :=
  ⟨"bottom1", .bottoms, [.navy], .navy, .business, [.allSeason], 0, false, 0⟩

/-- A concrete shoes item for the end-to-end fixtures. -/
def witnessShoes : ClothingItem :=
  ⟨"shoes1", .shoes, [.black], .black, .casual, [.allSeason], 0, false, 0⟩

/-- A much-worn item: quick-suggestion priority 10 at clock reading 0. -/
def quickItemA : ClothingItem :=
  ⟨"a1", .tops, [.white], .white, .business, [.allSeason], 5, false, 0⟩

/-- A never-worn item: quick-suggestion priority 15 at clock reading 0. -/
def quickItemB : ClothingItem :=
  ⟨"b1", .bottoms, [.navy], .navy, .business, [.allSeason], 0, false, 0⟩

example : calculateColorHarmony
    ⟨"a", .tops, [.black], .black, .casual, [], 0, false, 0⟩
    ⟨"b", .bottoms, [.white], .white, .casual, [], 0, false, 0⟩ = 0.95 := rfl

example : calculateStyleScore
    [⟨"a", .tops, [.black], .black, .business, [], 0, false, 0⟩,
     ⟨"b", .bottoms, [.white], .white, .casual, [], 0, false, 0⟩] .work
    = (1.0 + 0.7) / 2 := by
  norm_num +decide [calculateStyleScore, OCCASION_STYLE_MAP]

lemma calculateColorHarmony_eq_spec (item1 item2 : ClothingItem) :
    calculateColorHarmony item1 item2 = pairHarmonySpec item1.primaryColor item2.primaryColor :=
  rfl

lemma COLOR_HARMONY_MATRIX_isSome (c : ColorFamily) : (COLOR_HARMONY_MATRIX c).isSome := by
  cases c <;> rfl

lemma jsSortInsert_perm {α : Type} (lt : α → α → Bool) (x : α) (l : List α) :
    (jsSortInsert lt x l).Perm (x :: l) := by
  induction l with
  | nil => simp [jsSortInsert]
  | cons y ys ih =>
      simp only [jsSortInsert]
      split
      · exact ((ih.cons y).trans (List.Perm.swap x y ys))
      · exact List.Perm.refl _

lemma jsStableSort_perm {α : Type} (lt : α → α → Bool) (l : List α) :
    (jsStableSort lt l).Perm l := by
  induction l with
  | nil => simp [jsStableSort]
  | cons x xs ih =>
      exact (jsSortInsert_perm lt x (jsStableSort lt xs)).trans (ih.cons x)

lemma mem_jsStableSort {α : Type} (lt : α → α → Bool) (l : List α) (a : α) :
    a ∈ jsStableSort lt l ↔ a ∈ l :=
  (jsStableSort_perm lt l).mem_iff

lemma foldl_add_eq_sum (g : ClothingItem → ℚ) (l : List ClothingItem) (a : ℚ) :
    l.foldl (fun sum item => sum + g item) a = a + (l.map g).sum := by
  induction l generalizing a with
  | nil => simp
  | cons x xs ih => simp [ih, add_assoc]

lemma foldl_score_count (score : ClothingItem → ℚ) (l : List ClothingItem) (a : ℚ) (n : Nat) :
    l.foldl (fun (p : ℚ × Nat) item => (p.1 + score item, p.2 + 1)) (a, n)
      = (a + (l.map score).sum, n + l.length) := by
  induction l generalizing a n with
  | nil => simp
  | cons x xs ih => simp [ih, add_assoc, Nat.add_assoc, Nat.add_comm 1]

lemma pairHarmonyScores_length (l : List ClothingItem) :
    (pairHarmonyScores l).length = l.length.choose 2 := by
  induction l with
  | nil => simp [pairHarmonyScores]
  | cons x xs ih =>
      simp [pairHarmonyScores, ih, Nat.choose_succ_succ, Nat.choose_one_right]

lemma pairHarmonyScores_sum (l : List ClothingItem) :
    (pairHarmonyScores l).sum = ((l.sublistsLen 2).map unorderedPairHarmony).sum := by
  induction l with
  | nil => simp [pairHarmonyScores]
  | cons x xs ih =>
      have h1 : List.sublistsLen 2 (x :: xs)
          = List.sublistsLen 2 xs ++ (List.sublistsLen 1 xs).map (List.cons x) :=
        List.sublistsLen_succ_cons 1 x xs
      have h2 : ((List.sublistsLen 1 xs).map (List.cons x)).map unorderedPairHarmony
          = xs.reverse.map (fun y => pairHarmonySpec x.primaryColor y.primaryColor) := by
        rw [List.sublistsLen_one]
        simp [List.map_map, Function.comp, unorderedPairHarmony]
      have h3 : (xs.map (calculateColorHarmony x)).sum
          = (xs.map (fun y => pairHarmonySpec x.primaryColor y.primaryColor)).sum := by
        have hf : calculateColorHarmony x
            = fun y => pairHarmonySpec x.primaryColor y.primaryColor :=
          funext fun y => calculateColorHarmony_eq_spec x y
        rw [hf]
      simp only [pairHarmonyScores, List.sum_append, h1, List.map_append, h2, ih, h3]
      rw [List.map_reverse, List.sum_reverse]
      ring

lemma generateRecursive_eq_take (maxC : Nat) :
    ∀ (lists : List (List ClothingItem)) (cur : List ClothingItem)
      (combs : List (List ClothingItem)),
    generateRecursive maxC lists cur combs
      = combs ++ (allSelections lists cur).take (maxC - combs.length) := by
  intro lists
  induction lists with
  | nil =>
      intro cur combs
      by_cases hcap : combs.length ≥ maxC
      · have h0 : maxC - combs.length = 0 := by omega
        simp [generateRecursive, allSelections, hcap, h0]
      · obtain ⟨k, hk⟩ : ∃ k, maxC - combs.length = k + 1 :=
          ⟨maxC - combs.length - 1, by omega⟩
        simp [generateRecursive, allSelections, hcap, hk]
  | cons currentList rest ih =>
      have hloop : ∀ (pending : List ClothingItem) (cur : List ClothingItem)
          (combs : List (List ClothingItem)),
          generateLoop maxC rest cur pending combs
            = combs ++ (selectionsFrom rest cur (pending.filter
                (fun item => !(cur.any (fun existing => existing.id == item.id))))).take
                (maxC - combs.length) := by
        intro pending
        induction pending with
        | nil => intro cur combs; simp [generateLoop, selectionsFrom]
        | cons item remaining ihp =>
            intro cur combs
            by_cases hdup : cur.any (fun existing => existing.id == item.id)
            · simp only [generateLoop, hdup, if_pos]
              rw [ihp]
              simp [List.filter_cons, hdup]
            · simp only [generateLoop, hdup, if_neg, Bool.not_eq_true]
              rw [ih (cur ++ [item]) combs, ihp]
              have hfilter : (item :: remaining).filter
                  (fun item => !(cur.any (fun existing => existing.id == item.id)))
                  = item :: remaining.filter
                    (fun item => !(cur.any (fun existing => existing.id == item.id))) := by
                simp [List.filter_cons, hdup]
              rw [hfilter]
              simp only [selectionsFrom]
              rw [List.take_append_eq_append_take, List.append_assoc]
              congr 2
              simp only [List.length_append, List.length_take, inf_eq_min]
              congr 1
              omega
      intro cur combs
      by_cases hcap : combs.length ≥ maxC
      · have h0 : maxC - combs.length = 0 := by omega
        simp [generateRecursive, hcap, h0]
      · simp only [generateRecursive, hcap, if_neg, not_le.mpr (lt_of_not_ge hcap)]
        rw [hloop]
        simp [allSelections]

lemma generateCombinations_of_missing (groups : ClothingCategory → List ClothingItem)
    (comb : OutfitCombination) (maxC : Nat)
    (h : ∃ cat ∈ comb.required, groups cat = []) :
    generateCombinations groups comb maxC = [] := by
  obtain ⟨cat, hmem, hempty⟩ := h
  have hlt : ((comb.required.map (fun c => groups c)).filter
      (fun list => list.length > 0)).length < (comb.required.map (fun c => groups c)).length := by
    rw [List.length_filter_lt_length_iff_exists]
    exact ⟨groups cat, List.mem_map_of_mem _ hmem, by simp [hempty]⟩
  have hne : ((comb.required.map (fun c => groups c)).filter
      (fun list => list.length > 0)).length ≠ comb.required.length := by
    rw [List.length_map] at hlt
    omega
  simp [generateCombinations, hne]

lemma generateCombinations_of_full (groups : ClothingCategory → List ClothingItem)
    (comb : OutfitCombination) (maxC : Nat)
    (h : ∀ cat ∈ comb.required, groups cat ≠ []) :
    generateCombinations groups comb maxC
      = (allSelections (comb.required.map (fun c => groups c)) []).take maxC := by
  have hfilter : (comb.required.map (fun c => groups c)).filter
      (fun list => list.length > 0) = comb.required.map (fun c => groups c) := by
    rw [List.filter_eq_self]
    intro a ha
    obtain ⟨cat, hcat, rfl⟩ := List.mem_map.mp ha
    have := h cat hcat
    simp only [gt_iff_lt, decide_eq_true_eq]
    exact List.length_pos.mpr this
  simp only [generateCombinations, hfilter, List.length_map, ne_eq, not_true_eq_false,
    if_false]
  rw [generateRecursive_eq_take]
  simp

lemma mem_dedupLoop (m : Nat) :
    ∀ (l : List OutfitRecommendation) (seen : List String)
      (uniq : List OutfitRecommendation) (r : OutfitRecommendation),
    r ∈ dedupLoop m l seen uniq → r ∈ uniq ∨ r ∈ l := by
  intro l
  induction l with
  | nil => intro seen uniq r h; simp [dedupLoop] at h; exact Or.inl h
  | cons outfit rest ih =>
      intro seen uniq r h
      simp only [dedupLoop] at h
      split at h
      · rcases ih _ _ _ h with huniq | hrest
        · rcases List.mem_append.mp huniq with h1 | h2
          · exact Or.inl h1
          · simp at h2
            subst h2
            exact Or.inr (List.mem_cons_self _ _)
        · exact Or.inr (List.mem_cons_of_mem _ hrest)
      · rcases ih _ _ _ h with huniq | hrest
        · exact Or.inl huniq
        · exact Or.inr (List.mem_cons_of_mem _ hrest)

lemma dedupLoop_nodup_keys (m : Nat) :
    ∀ (l : List OutfitRecommendation) (seen : List String)
      (uniq : List OutfitRecommendation),
    (∀ k ∈ uniq.map outfitKey, k ∈ seen) → (uniq.map outfitKey).Nodup →
    ((dedupLoop m l seen uniq).map outfitKey).Nodup := by
  intro l
  induction l with
  | nil => intro seen uniq _hsub hnd; simpa [dedupLoop] using hnd
  | cons outfit rest ih =>
      intro seen uniq hsub hnd
      simp only [dedupLoop]
      split
      · next hcond =>
          apply ih (outfitKey outfit :: seen) (uniq ++ [outfit])
          · intro k hk
            simp only [List.map_append, List.map_cons, List.map_nil,
              List.mem_append, List.mem_cons] at hk
            rcases hk with hk | hk
            · exact List.mem_cons_of_mem _ (hsub k hk)
            · simp only [List.mem_singleton, List.not_mem_nil, or_false] at hk
              subst hk
              exact List.mem_cons_self _ _
          · rw [List.map_append]
            apply List.Nodup.append hnd (by simp)
            intro k hk hk2
            simp only [List.map_cons, List.map_nil, List.mem_singleton,
              List.not_mem_nil, or_false, List.mem_cons] at hk2
            subst hk2
            exact hcond.1 (by simpa using hsub _ hk)
      · exact ih seen uniq hsub hnd

lemma pairHarmonySpec_mem (a b : ColorFamily) :
    pairHarmonySpec a b ∈ ([1.0, 0.95, 0.8, 0.6, 0.2] : List ℚ) := by
  unfold pairHarmonySpec
  cases a <;> simp only [COLOR_HARMONY_MATRIX] <;> split_ifs <;> norm_num

lemma colorPreferenceBonus_match_eq (pcs : List ColorFamily) (items : List ClothingItem) :
    (if pcs.length > 0 then
      (if items.any (fun item =>
          pcs.contains item.primaryColor ||
          item.colors.any (fun color => pcs.contains color)) then (0.1 : ℚ) else 0)
      else 0)
    = colorPreferenceBonusSpec (some pcs) items := by
  simp only [colorPreferenceBonusSpec]
  by_cases hne : pcs = []
  · subst hne; simp
  · have hlen : pcs.length > 0 := List.length_pos.mpr hne
    rw [if_pos hlen]
    by_cases hany : items.any (fun item =>
        pcs.contains item.primaryColor || item.colors.any (fun color => pcs.contains color))
    · rw [if_pos hany, if_pos]
      refine ⟨hne, ?_⟩
      obtain ⟨item, hitem, hp⟩ := List.any_eq_true.mp hany
      simp only [Bool.or_eq_true, List.elem_iff, List.any_eq_true] at hp
      exact ⟨item, hitem, hp⟩
    · rw [if_neg hany, if_neg]
      rintro ⟨-, item, hitem, hp⟩
      apply hany
      refine List.any_eq_true.mpr ⟨item, hitem, ?_⟩
      simp only [Bool.or_eq_true, List.elem_iff, List.any_eq_true]
      exact hp

lemma favoriteBonus_if_eq (items : List ClothingItem) :
    (if items.any (fun item => item.isFavorite) then (0.05 : ℚ) else 0)
      = favoriteBonusSpec items := by
  simp only [favoriteBonusSpec]
  by_cases h : items.any (fun item => item.isFavorite)
  · rw [if_pos h, if_pos]
    obtain ⟨item, hitem, hp⟩ := List.any_eq_true.mp h
    exact ⟨item, hitem, hp⟩
  · rw [if_neg h, if_neg]
    rintro ⟨item, hitem, hp⟩
    exact h (List.any_eq_true.mpr ⟨item, hitem, hp⟩)

lemma avgWearCount_foldl_eq (items : List ClothingItem) :
    (items.foldl (fun sum item => sum + (item.wearCount : ℚ)) 0) / (items.length : ℚ)
      = averageWearCount items := by
  rw [foldl_add_eq_sum, zero_add, averageWearCount]

lemma generateOutfitRecommendations_def (wardrobeItems : List ClothingItem)
    (occasion : Occasion) (options : RecommendationOptions) :
    generateOutfitRecommendations wardrobeItems occasion options =
      (let groups := groupItemsByCategory (availableAfterFilters wardrobeItems options)
       let includedItems :=
         if options.includeItemIds.length > 0 then
           wardrobeItems.filter (fun item => options.includeItemIds.contains item.id)
         else []
       let allCombinations := OUTFIT_COMBINATIONS.flatMap (fun combinationType =>
         (generateCombinations groups combinationType 100).filter (fun combo =>
           if includedItems.length > 0 then
             includedItems.all (fun required => combo.any (fun item => item.id == required.id))
           else true))
       let scoredOutfits := allCombinations.map
         (fun items => scoreOutfitCombination items occasion options.preferredColors)
       dedupLoop options.maxRecommendations
         (jsStableSort (fun a b => decide (b.confidence < a.confidence)) scoredOutfits) [] []) :=
  rfl

lemma gen_witness_ghost :
    generateOutfitRecommendations [witnessTop, witnessBottom, witnessShoes] .work
      ⟨none, none, [], ["ghost"], 10⟩
    = [scoreOutfitCombination [witnessTop, witnessBottom, witnessShoes] .work none] := by
  simp +decide [generateOutfitRecommendations, availableAfterFilters, filterBySeasonality,
    groupItemsByCategory, generateCombinations, generateRecursive, generateLoop,
    jsStableSort, jsSortInsert, dedupLoop, OUTFIT_COMBINATIONS,
    witnessTop, witnessBottom, witnessShoes]

/-- Claim C1: for a non-empty outfit the returned confidence is exactly
`min(1.0, 0.5*styleScore + 0.4*colorHarmony + colorPreferenceBonus +
freshnessBonus + favoriteBonus)` with the three bonuses as specified,
and in particular never exceeds 1.0. -/
theorem claim_C1 (items : List ClothingItem) (occasion : Occasion)
    (preferredColors : Option (List ColorFamily)) (_hne : items ≠ []) :
    (scoreOutfitCombination items occasion preferredColors).confidence
      = min 1.0 (0.5 * (scoreOutfitCombination items occasion preferredColors).styleScore
          + 0.4 * (scoreOutfitCombination items occasion preferredColors).colorHarmony
          + colorPreferenceBonusSpec preferredColors items
          + freshnessBonusSpec items + favoriteBonusSpec items)
      ∧ (scoreOutfitCombination items occasion preferredColors).confidence ≤ 1.0 := by
  constructor
  · simp only [scoreOutfitCombination]
    congr 1
    rw [avgWearCount_foldl_eq, favoriteBonus_if_eq]
    have hcpb : (match preferredColors with
        | none => (0 : ℚ)
        | some pcs =>
            if pcs.length > 0 then
              if items.any (fun item =>
                  pcs.contains item.primaryColor ||
                  item.colors.any (fun color => pcs.contains color)) then 0.1
              else 0
            else 0)
        = colorPreferenceBonusSpec preferredColors items := by
      cases preferredColors with
      | none => simp [colorPreferenceBonusSpec]
      | some pcs => exact colorPreferenceBonus_match_eq pcs items
    rw [hcpb, freshnessBonusSpec]
    ring
  · simp only [scoreOutfitCombination]
    exact min_le_left _ _

/-- Witness for `claim_C1`: its hypothesis is satisfiable and the
conclusion holds at a concrete non-empty outfit. -/
theorem claim_C1_witness :
    ([witnessTop] : List ClothingItem) ≠ [] ∧
    ((scoreOutfitCombination [witnessTop] .work none).confidence
      = min 1.0 (0.5 * (scoreOutfitCombination [witnessTop] .work none).styleScore
          + 0.4 * (scoreOutfitCombination [witnessTop] .work none).colorHarmony
          + colorPreferenceBonusSpec none [witnessTop]
          + freshnessBonusSpec [witnessTop] + favoriteBonusSpec [witnessTop])
      ∧ (scoreOutfitCombination [witnessTop] .work none).confidence ≤ 1.0) :=
  ⟨by simp, claim_C1 [witnessTop] .work none (by simp)⟩

/-- Claim C2 (amended part): given an explicit clock reading, the quick
entry point is a pure function of its arguments whose wardrobe state
after the call is the priority-sorted permutation of the input, and its
output is computed from that reordered wardrobe. -/
theorem claim_C2_amended (now : ℚ) (wardrobeItems : List ClothingItem)
    (occasion : Occasion) (maxSuggestions : Nat) :
    ((getQuickOutfitSuggestions now wardrobeItems occasion maxSuggestions).2.Perm
      wardrobeItems)
    ∧ ((getQuickOutfitSuggestions now wardrobeItems occasion maxSuggestions).1
        = generateOutfitRecommendations
            (getQuickOutfitSuggestions now wardrobeItems occasion maxSuggestions).2
            occasion ⟨none, none, [], [], maxSuggestions⟩) :=
  ⟨jsStableSort_perm _ wardrobeItems, rfl⟩

/-- Counterexample to claim C2 as stated: `getQuickOutfitSuggestions`
sorts the wardrobe array of the caller in place
(`wardrobeItems.sort(...)`), so the input wardrobe is not left
unchanged: a two-item wardrobe ends up reordered. -/
theorem claim_C2_counterexample :
    (getQuickOutfitSuggestions 0 [quickItemA, quickItemB] .work 3).2
      ≠ [quickItemA, quickItemB] := by
  have hsort : (getQuickOutfitSuggestions 0 [quickItemA, quickItemB] .work 3).2
      = [quickItemB, quickItemA] := by
    simp only [getQuickOutfitSuggestions, jsStableSort, jsSortInsert]
    norm_num [quickPriorityScore, quickItemA, quickItemB]
  rw [hsort]
  intro h
  have := List.head_eq_of_cons_eq h
  simp [quickItemA, quickItemB] at this

/-- Claim C3: `calculateColorHarmony` returns 1.0 on identical primary
colors and otherwise scores the second color through the profile entry
of the first color: 0.95 if complementary, 0.8 if compatible, 0.2 if
avoided, 0.6 if unrelated, and 0.5 if the first color had no profile
entry — exactly the case analysis transcribed in `pairHarmonySpec`. -/
theorem claim_C3 (item1 item2 : ClothingItem) :
    calculateColorHarmony item1 item2
      = pairHarmonySpec item1.primaryColor item2.primaryColor :=
  calculateColorHarmony_eq_spec item1 item2

/-- Claim C4: the outfit color harmony is 1.0 for fewer than 2 items,
and otherwise the arithmetic mean of the pairwise harmony over every
unordered pair (the 2-element sublists) of items, whose count is
`length choose 2`. -/
theorem claim_C4 (items : List ClothingItem) :
    calculateOutfitColorHarmony items =
      if items.length < 2 then 1.0
      else ((items.sublistsLen 2).map unorderedPairHarmony).sum
        / (items.length.choose 2 : ℚ) := by
  unfold calculateOutfitColorHarmony
  by_cases h : items.length < 2
  · simp [h]
  · have hpos : 0 < items.length.choose 2 := Nat.choose_pos (by omega)
    simp only [h, if_false]
    rw [if_pos (by rw [pairHarmonyScores_length]; exact hpos)]
    rw [pairHarmonyScores_sum, pairHarmonyScores_length]

/-- Claim C5: the style score is the arithmetic mean of the per-item
contributions (preferred 1.0, acceptable 0.7, avoid 0.2, otherwise 0.5)
and 0 for an empty item list. -/
theorem claim_C5 (items : List ClothingItem) (occasion : Occasion) :
    calculateStyleScore items occasion =
      if items = [] then 0
      else (items.map (itemStyleScoreSpec occasion)).sum / (items.length : ℚ) := by
  simp only [calculateStyleScore]
  rw [show (fun (a : ℚ × Nat) item =>
      ((a.1 + if item.style ∈ (OCCASION_STYLE_MAP occasion).preferred then (1.0 : ℚ)
        else if item.style ∈ (OCCASION_STYLE_MAP occasion).acceptable then 0.7
        else if item.style ∈ (OCCASION_STYLE_MAP occasion).avoid then 0.2
        else 0.5), a.2 + 1))
      = (fun (p : ℚ × Nat) item => (p.1 + itemStyleScoreSpec occasion item, p.2 + 1)) from by
    funext p item
    simp [itemStyleScoreSpec]]
  rw [foldl_score_count]
  by_cases h : items = []
  · simp [h]
  · have hlen : 0 < items.length := List.length_pos.mpr h
    simp [h, hlen, Nat.pos_iff_ne_zero.mp hlen]

/-- Claim C6: `generateCombinations` returns nothing when a required
category is unavailable, and otherwise the first `maxCombinations`
elements of the full admissible cross-product `allSelections` (drawing
from at most the first 5 items per category and skipping duplicate item
identities), so it never produces more than the cap. -/
theorem claim_C6 (groups : ClothingCategory → List ClothingItem)
    (comb : OutfitCombination) (maxC : Nat) :
    (generateCombinations groups comb maxC
      = if ∃ cat ∈ comb.required, groups cat = [] then []
        else (allSelections (comb.required.map (fun c => groups c)) []).take maxC)
    ∧ (generateCombinations groups comb maxC).length ≤ maxC := by
  have hmain : generateCombinations groups comb maxC
      = if ∃ cat ∈ comb.required, groups cat = [] then []
        else (allSelections (comb.required.map (fun c => groups c)) []).take maxC := by
    by_cases h : ∃ cat ∈ comb.required, groups cat = []
    · rw [if_pos h]
      exact generateCombinations_of_missing groups comb maxC h
    · rw [if_neg h]
      push_neg at h
      exact generateCombinations_of_full groups comb maxC h
  refine ⟨hmain, ?_⟩
  rw [hmain]
  split
  · simp
  · simp [List.length_take]

/-- Claim C7 (amended): every id in `includeItemIds` that identifies an
actual wardrobe item is present in every returned recommendation;
an include id matching no wardrobe item imposes no constraint. -/
theorem claim_C7_amended (wardrobeItems : List ClothingItem) (occasion : Occasion)
    (options : RecommendationOptions) (reqId : String)
    (hreq : reqId ∈ options.includeItemIds)
    (hw : ∃ wi ∈ wardrobeItems, wi.id = reqId) :
    (generateOutfitRecommendations wardrobeItems occasion options).all
      (fun r => r.items.any (fun item => item.id == reqId)) = true := by
  obtain ⟨wi, hwi, hwid⟩ := hw
  rw [List.all_eq_true]
  intro r hr
  simp only [generateOutfitRecommendations_def] at hr
  have hr2 := mem_dedupLoop _ _ _ _ _ hr
  simp only [List.not_mem_nil, false_or] at hr2
  rw [mem_jsStableSort] at hr2
  obtain ⟨combo, hcombo, rfl⟩ := List.mem_map.mp hr2
  obtain ⟨ct, _hct, hcombo2⟩ := List.mem_flatMap.mp hcombo
  rw [List.mem_filter] at hcombo2
  obtain ⟨-, hpred⟩ := hcombo2
  have hlen : options.includeItemIds.length > 0 :=
    List.length_pos.mpr (List.ne_nil_of_mem hreq)
  have hwi_inc : wi ∈ (if options.includeItemIds.length > 0 then
      wardrobeItems.filter (fun item => options.includeItemIds.contains item.id)
      else []) := by
    rw [if_pos hlen]
    refine List.mem_filter.mpr ⟨hwi, ?_⟩
    rw [hwid]
    simpa using hreq
  have hpos : (if options.includeItemIds.length > 0 then
      wardrobeItems.filter (fun item => options.includeItemIds.contains item.id)
      else []).length > 0 :=
    List.length_pos.mpr (List.ne_nil_of_mem hwi_inc)
  rw [if_pos hpos] at hpred
  have hany := List.all_eq_true.mp hpred wi hwi_inc
  obtain ⟨item, hitem, hid⟩ := List.any_eq_true.mp hany
  refine List.any_eq_true.mpr ⟨item, ?_, ?_⟩
  · simpa [scoreOutfitCombination] using hitem
  · rw [hwid] at hid
    exact hid

/-- Counterexample to claim C7 as stated: with the non-empty include
set `["ghost"]` whose id matches no wardrobe item, the engine keeps all
combinations, and the returned recommendation contains no item with id
`"ghost"`. -/
theorem claim_C7_counterexample :
    ¬ (∀ r ∈ generateOutfitRecommendations [witnessTop, witnessBottom, witnessShoes] .work
          ⟨none, none, [], ["ghost"], 10⟩,
        ∀ reqId ∈ (⟨none, none, [], ["ghost"], 10⟩ : RecommendationOptions).includeItemIds,
          ∃ item ∈ r.items, item.id = reqId) := by
  rw [gen_witness_ghost]
  intro h
  have h2 := h _ (List.mem_singleton_self _) "ghost" (by simp)
  simp [scoreOutfitCombination, witnessTop, witnessBottom, witnessShoes] at h2

/-- Witness for `claim_C7_amended`: a concrete wardrobe and a concrete
include id that does identify a wardrobe item. -/
theorem claim_C7_witness :
    (generateOutfitRecommendations [witnessTop, witnessBottom, witnessShoes] .work
        ⟨none, none, [], ["top1"], 10⟩).all
      (fun r => r.items.any (fun item => item.id == "top1")) = true :=
  claim_C7_amended [witnessTop, witnessBottom, witnessShoes] .work
    ⟨none, none, [], ["top1"], 10⟩ "top1" (by simp)
    ⟨witnessTop, by simp, rfl⟩

/-- Claim C8: the final recommendation list never contains two entries
whose sorted item-id lists coincide — among scored combinations with the
same item-id set only one survives de-duplication. -/
theorem claim_C8 (wardrobeItems : List ClothingItem) (occasion : Occasion)
    (options : RecommendationOptions) :
    ((generateOutfitRecommendations wardrobeItems occasion options).map
      (fun r => sortItemIds r.items)).Nodup := by
  have hkeys : ((generateOutfitRecommendations wardrobeItems occasion options).map
      outfitKey).Nodup := by
    rw [generateOutfitRecommendations_def]
    exact dedupLoop_nodup_keys _ _ [] [] (by simp) (by simp)
  have hmap : (generateOutfitRecommendations wardrobeItems occasion options).map outfitKey
      = (((generateOutfitRecommendations wardrobeItems occasion options).map
          (fun r => sortItemIds r.items)).map (fun ids => String.intercalate "-" ids)) := by
    rw [List.map_map]
    rfl
  rw [hmap] at hkeys
  exact List.Nodup.of_map _ hkeys

/-- Claim C9: an empty wardrobe, or any wardrobe whose filtered category
partition leaves some required category of every skeleton empty, yields
the empty recommendation list (and, the engine being a total function,
no error). -/
theorem claim_C9 (wardrobeItems : List ClothingItem) (occasion : Occasion)
    (options : RecommendationOptions)
    (h : wardrobeItems = [] ∨ ∀ ct ∈ OUTFIT_COMBINATIONS, ∃ cat ∈ ct.required,
        groupItemsByCategory (availableAfterFilters wardrobeItems options) cat = []) :
    generateOutfitRecommendations wardrobeItems occasion options = [] := by
  have hforall : ∀ ct ∈ OUTFIT_COMBINATIONS, ∃ cat ∈ ct.required,
      groupItemsByCategory (availableAfterFilters wardrobeItems options) cat = [] := by
    rcases h with rfl | h
    · have hav : availableAfterFilters [] options = [] := by
        simp only [availableAfterFilters, List.filter_nil]
        cases options.season <;> simp [filterBySeasonality]
      intro ct hct
      have hreq : ct.required ≠ [] := by
        revert hct
        have : ∀ ct2 ∈ OUTFIT_COMBINATIONS, ct2.required ≠ [] := by decide
        exact this ct
      obtain ⟨cat, hcat⟩ := List.exists_mem_of_ne_nil _ hreq
      exact ⟨cat, hcat, by rw [hav]; rfl⟩
    · exact h
  rw [generateOutfitRecommendations_def]
  have hflat : (OUTFIT_COMBINATIONS.flatMap (fun combinationType =>
      (generateCombinations (groupItemsByCategory (availableAfterFilters wardrobeItems options))
        combinationType 100).filter (fun combo =>
        if (if options.includeItemIds.length > 0 then
            wardrobeItems.filter (fun item => options.includeItemIds.contains item.id)
          else []).length > 0 then
          (if options.includeItemIds.length > 0 then
            wardrobeItems.filter (fun item => options.includeItemIds.contains item.id)
          else []).all (fun required => combo.any (fun item => item.id == required.id))
        else true))) = [] := by
    rw [List.flatMap_eq_nil_iff]
    intro ct hct
    rw [generateCombinations_of_missing _ _ _ (hforall ct hct)]
    rfl
  simp only []
  rw [hflat]
  rfl

/-- Witness for `claim_C9`: the empty wardrobe yields the empty list. -/
theorem claim_C9_witness :
    generateOutfitRecommendations [] .work ⟨none, none, [], [], 10⟩ = [] :=
  claim_C9 [] .work ⟨none, none, [], [], 10⟩ (Or.inl rfl)

/-- Claim C10: on the closed `ColorFamily` enumeration the pairwise
harmony score is always one of 1.0, 0.95, 0.8, 0.6 or 0.2; the 0.5
fallback for a missing profile entry is unreachable because
`COLOR_HARMONY_MATRIX` has an entry (`isSome`) for every color family. -/
theorem claim_C10 :
    (∀ item1 item2 : ClothingItem,
      calculateColorHarmony item1 item2 ∈ ([1.0, 0.95, 0.8, 0.6, 0.2] : List ℚ))
    ∧ (∀ c : ColorFamily, (COLOR_HARMONY_MATRIX c).isSome) := by
  constructor
  · intro item1 item2
    rw [calculateColorHarmony_eq_spec]
    exact pairHarmonySpec_mem _ _
  · exact COLOR_HARMONY_MATRIX_isSome
